import Mathlib

/-!
Verification development for the AirQ firmware.

Shallow embedding of the firmware's pure control logic:
* the hysteresis-banding variant of the AQI stabiliser and its color map
  (firmware/src/main.cpp together with firmware/include/config.example.h);
* the AQI-to-hue map, the exponential hue smoothing and the warm-up pulse
  of the FreeRTOS control loop (firmware/main/main.c);
* the LED intensity store (firmware/main/led.c);
* the line protocol command handler (Aircube/firmware/main/serial_protocol.c);
* the I2C device-handle cache (Aircube/firmware/main/i2c_driver.c);
* the ENS16x operating-mode transition (firmware/main/ens16x_driver.c);
* the ENS210 register decoder (firmware/main/ens210.c).

C machine floats are embedded as exact rationals (or reals where the code
uses transcendental functions); C unsigned/int arithmetic is embedded as
Nat/Int with the casts made explicit.  Stateful code is embedded as explicit
state passing; mutex acquisition results and bus read values are passed in
as explicit parameters.
-/

namespace AirQ

/-! ### Hysteresis-banding variant (firmware/src/main.cpp, config.example.h) -/

/-- Green-to-yellow transition threshold, from config.example.h. -/
def AQ_THRESHOLD_LOW : ℕ := 20

/-- Yellow-to-red transition threshold, from config.example.h. -/
def AQ_THRESHOLD_HIGH : ℕ := 60

/-- Hysteresis margin, from config.example.h. -/
def AQ_HYSTERESIS_BAND : ℕ := 5

/-- Embedding of applyHysteresis from firmware/src/main.cpp (lines 68-97).
The uint8_t operands promote to int in C, so the arithmetic never wraps and
Nat faithfully models it. -/
def applyHysteresis (lastAqIndex newIndex : ℕ) : ℕ :=
  if newIndex ≤ AQ_THRESHOLD_LOW - AQ_HYSTERESIS_BAND ∨
     (AQ_THRESHOLD_LOW - AQ_HYSTERESIS_BAND < newIndex ∧
      newIndex < AQ_THRESHOLD_LOW + AQ_HYSTERESIS_BAND ∧
      AQ_THRESHOLD_LOW ≤ lastAqIndex) ∨
     (AQ_THRESHOLD_HIGH - AQ_HYSTERESIS_BAND < newIndex ∧
      newIndex < AQ_THRESHOLD_HIGH + AQ_HYSTERESIS_BAND ∧
      AQ_THRESHOLD_HIGH ≤ lastAqIndex) ∨
     AQ_THRESHOLD_HIGH + AQ_HYSTERESIS_BAND ≤ newIndex then
    if newIndex < AQ_THRESHOLD_LOW - AQ_HYSTERESIS_BAND ∨
       AQ_THRESHOLD_HIGH + AQ_HYSTERESIS_BAND < newIndex then
      newIndex
    else if lastAqIndex < AQ_THRESHOLD_LOW ∧
            newIndex < AQ_THRESHOLD_LOW + AQ_HYSTERESIS_BAND then
      lastAqIndex
    else if AQ_THRESHOLD_LOW ≤ lastAqIndex ∧ lastAqIndex < AQ_THRESHOLD_HIGH ∧
            AQ_THRESHOLD_LOW - AQ_HYSTERESIS_BAND ≤ newIndex ∧
            newIndex < AQ_THRESHOLD_HIGH + AQ_HYSTERESIS_BAND then
      lastAqIndex
    else if AQ_THRESHOLD_HIGH ≤ lastAqIndex ∧
            AQ_THRESHOLD_HIGH - AQ_HYSTERESIS_BAND < newIndex then
      lastAqIndex
    else
      newIndex
  else
    newIndex

/-! ### AQI to hue map (firmware/main/main.c, aqi_to_hue) -/

/-- AQI_MIN from firmware/main/main.c. -/
def AQI_MIN : ℤ := 0

/-- AQI_MAX from firmware/main/main.c. -/
def AQI_MAX : ℤ := 200

/-- AQI_GREEN_THRESHOLD from firmware/main/main.c. -/
def AQI_GREEN_THRESHOLD : ℤ := 10

/-- HUE_GREEN from firmware/main/main.c: 2/6 of 65536. -/
def HUE_GREEN : ℕ := 21845

/-- Embedding of aqi_to_hue from firmware/main/main.c (lines 81-104).
The float expression (aqi-10)/190*21845 truncated by the uint16_t cast is
embedded as exact Nat multiplication followed by floor division. -/
def aqi_to_hue (aqi : ℤ) : ℕ :=
  let a₁ := if aqi < AQI_MIN then AQI_MIN else aqi
  let a₂ := if a₁ > AQI_MAX then AQI_MAX else a₁
  if a₂ ≤ AQI_GREEN_THRESHOLD then
    HUE_GREEN
  else
    HUE_GREEN - ((a₂ - AQI_GREEN_THRESHOLD).toNat * HUE_GREEN) / 190

/-! ### Warm-up pulsing (firmware/main/main.c, get_pulsing_color_with_intensity) -/

/-- PULSE_MS from firmware/main/main.c line 39: the pulse period in ms. -/
def PULSE_MS : ℕ := 50

/-- The counter update at the top of get_pulsing_color_with_intensity: the
accumulating pulse_time_ms is advanced by the fixed 20 ms call cadence on
every call (main.c line 173). -/
def pulse_tick (pulse_time_ms : ℕ) : ℕ := pulse_time_ms + 20

/-- The sinusoidal pulse brightness computed by
get_pulsing_color_with_intensity (main.c lines 176-179) from the already
advanced counter t: phase = (t mod PULSE_MS)/PULSE_MS * 2*pi
and brightness = (sin phase + 1)/2. -/
noncomputable def pulse_brightness (t : ℕ) : ℝ :=
  (Real.sin (((t % PULSE_MS : ℕ) : ℝ) / (PULSE_MS : ℝ) * (2 * Real.pi)) + 1) / 2

/-- Modelled from the spec: while warming up, `output intensity additionally
modulates via a sinusoidal pulse (period 1000 ms, amplitude spanning the
full 0-1 scale, phase derived from an accumulating time counter)`.  This is
the period-1000 sinusoidal pulse on the same counter, stated for comparison
with the code's pulse_brightness. -/
noncomputable def spec_pulse_brightness (t : ℕ) : ℝ :=
  (Real.sin (((t % 1000 : ℕ) : ℝ) / (1000 : ℝ) * (2 * Real.pi)) + 1) / 2

/-! ### Exponential hue smoothing (firmware/main/main.c, app_main render loop) -/

/-- TRANSITION_SPEED from firmware/main/main.c: 0.02 per 20 ms tick. -/
def TRANSITION_SPEED : ℚ := 2 / 100

/-- One render-tick smoothing update from the app_main loop (lines 366-368):
current += (target - current) * TRANSITION_SPEED. -/
def smooth_step (target current : ℚ) : ℚ :=
  current + (target - current) * TRANSITION_SPEED

/-- The hue after n render ticks of the smoothing update, from initial
hue `init` toward the fixed target `target`. -/
def smooth_iter (target init : ℚ) : ℕ → ℚ
  | 0 => init
  | n + 1 => smooth_step target (smooth_iter target init n)

/-! ### LED intensity store (firmware/main/led.c) -/

/-- Result of the bounded-wait (100 ms) mutex acquisition guarding the LED
state: the mutex may be absent (creation failed), acquired, or timed out. -/
inductive LockStatus
  | absent
  | acquired
  | timedOut
deriving DecidableEq

/-- The LED shared state of led.c: current color (GRB, initially
LED_COLOR_OFF = 0) and current intensity (initially 0.6). -/
structure LedState where
  led_color : ℕ
  led_intensity : ℚ
deriving DecidableEq

/-- Embedding of led_set_intensity (led.c lines 146-158): the input is
clamped to 0..1 first; then, if the mutex exists, the store happens only
when acquisition succeeds (a timeout leaves the state unchanged), and if
the mutex is absent the code falls back to a direct store. -/
def led_set_intensity (lock : LockStatus) (intensity : ℚ) (st : LedState) : LedState :=
  let i₁ := if intensity < 0 then 0 else intensity
  let i₂ := if i₁ > 1 then 1 else i₁
  match lock with
  | LockStatus.acquired => { st with led_intensity := i₂ }
  | LockStatus.absent => { st with led_intensity := i₂ }
  | LockStatus.timedOut => st

/-- Embedding of led_get_intensity (led.c lines 185-194): reads the stored
intensity under the mutex; an acquisition timeout returns the 0.0 the local
variable was initialised with. -/
def led_get_intensity (lock : LockStatus) (st : LedState) : ℚ :=
  match lock with
  | LockStatus.acquired => st.led_intensity
  | LockStatus.absent => st.led_intensity
  | LockStatus.timedOut => 0

/-! ### Readout-period store (firmware/main/main.c) and combined state -/

/-- The shared state the line protocol touches: the LED state of led.c and
main.c's sensor_readout_period_ms (default 1000). -/
structure SysState where
  led : LedState
  sensor_readout_period_ms : ℕ
deriving DecidableEq

/-- Embedding of get_sensor_readout_period_ms (main.c lines 49-59): the
period mutex is taken with an unbounded wait, so with the mutex present the
call returns the stored period; without it, the 1000 default. -/
def get_sensor_readout_period_ms (mutexPresent : Bool) (st : SysState) : ℕ :=
  if mutexPresent then st.sensor_readout_period_ms else 1000

/-- Embedding of set_sensor_readout_period_ms (main.c lines 61-69). -/
def set_sensor_readout_period_ms (mutexPresent : Bool) (period : ℕ) (st : SysState) :
    SysState :=
  if mutexPresent then { st with sensor_readout_period_ms := period } else st

/-- The state at task start: LED off, intensity 0.6, period 1000 ms. -/
def initialSysState : SysState := ⟨⟨0, 6 / 10⟩, 1000⟩

/-! ### Line protocol (Aircube/firmware/main/serial_protocol.c) -/

/-- Whether pat occurs at the very start of s; models C strncmp of the
buffer against a literal of pat's length. -/
def leadsWith : List Char → List Char → Bool
  | [], _ => true
  | _ :: _, [] => false
  | p :: ps, c :: cs => p == c && leadsWith ps cs

/-- C strstr over the message bytes: the first suffix of the buffer at
which pat occurs, if any. -/
def strstrList (pat : List Char) : List Char → Option (List Char)
  | [] => if leadsWith pat [] then some [] else none
  | c :: cs => if leadsWith pat (c :: cs) then some (c :: cs) else strstrList pat cs

/-- C strchr over the message bytes: index of the first occurrence of ch. -/
def idxOfChar (ch : Char) : List Char → Option ℕ
  | [] => none
  | c :: cs => if c == ch then some 0 else (idxOfChar ch cs).map (· + 1)

/-- Leading decimal digits of the byte list, and the rest. -/
def digitsTake : List Char → List ℕ × List Char
  | [] => ([], [])
  | c :: cs =>
    if c.isDigit then
      let (ds, rest) := digitsTake cs
      ((c.toNat - 48) :: ds, rest)
    else
      ([], c :: cs)

/-- C strtof restricted to the decimal forms the protocol receives: an
optional sign, integer digits, an optional fraction part; 0 when no digits
parse, as strtof yields.  Exponent forms are not modelled. -/
def strtofQ (s : List Char) : ℚ :=
  let (neg, s₁) :=
    match s with
    | '-' :: t => (true, t)
    | '+' :: t => (false, t)
    | _ => (false, s)
  let (ds, s₂) := digitsTake s₁
  let ip : ℚ := ((ds.foldl (fun a d => a * 10 + d) 0 : ℕ) : ℚ)
  let fds :=
    match s₂ with
    | '.' :: t => (digitsTake t).1
    | _ => []
  let fp : ℚ := ((fds.foldl (fun a d => a * 10 + d) 0 : ℕ) : ℚ) / (10 : ℚ) ^ fds.length
  if neg then -(ip + fp) else ip + fp

/-- The C (uint32_t) cast of the parsed float: truncation toward zero (the
protocol only casts nonnegative values here). -/
def ratToU32 (q : ℚ) : ℕ := q.floor.toNat

/-- Responses the protocol prints: send_response, send_error and
send_config_response in serial_protocol.c. -/
inductive ProtoResp
  | ok (cmd : List Char) (value : ℚ)
  | err (msg : List Char)
  | config (intensity : ℚ) (readout_period : ℕ)
deriving DecidableEq

/-- The command-envelope portion of parse_command (serial_protocol.c lines
136-155): minimum length 10, the canonical leading brace-cmd sequence,
locating the quoted command name and bounds-checking its length (< 32).
Returns the command name, or none exactly where the C code returns false
without printing anything. -/
def parse_command_name (buffer : List Char) : Option (List Char) :=
  if buffer.length < 10 then none
  else if ¬ leadsWith ("\x7b\"cmd\":".toList) buffer then none
  else
    match strstrList ("\"cmd\":\"".toList) buffer with
    | none => none
    | some suffixAt =>
      let cmd_start := suffixAt.drop 7
      match idxOfChar '"' cmd_start with
      | none => none
      | some cmd_len =>
        if 32 ≤ cmd_len then none
        else some (cmd_start.take cmd_len)

/-- The mutex-acquisition outcomes seen during one parse_command call. -/
structure LockEnv where
  ledLock : LockStatus
  periodMutexPresent : Bool

/-- Embedding of parse_command (serial_protocol.c lines 130-204) together
with the state effects of the setters it calls: returns the new shared
state, the responses printed, and the C function's boolean result. -/
def parse_command (env : LockEnv) (buffer : List Char) (st : SysState) :
    SysState × List ProtoResp × Bool :=
  match parse_command_name buffer with
  | none => (st, [], false)
  | some cmd_name =>
    if cmd_name = ("get_config".toList) then
      (st, [ProtoResp.config (led_get_intensity env.ledLock st.led)
              (get_sensor_readout_period_ms env.periodMutexPresent st)], true)
    else
      match strstrList ("\"value\":".toList) buffer with
      | none => (st, [ProtoResp.err ("missing value field".toList)], false)
      | some value_at =>
        let value := strtofQ (value_at.drop 8)
        if cmd_name = ("set_intensity".toList) then
          let v₁ := if value < 0 then 0 else value
          let v₂ := if v₁ > 1 then 1 else v₁
          ({ st with led := led_set_intensity env.ledLock v₂ st.led },
           [ProtoResp.ok ("set_intensity".toList) v₂], true)
        else if cmd_name = ("set_readout_period".toList) then
          let p₁ := ratToU32 value
          let p₂ := if p₁ < 100 then 100 else p₁
          let p₃ := if p₂ > 10000 then 10000 else p₂
          (set_sensor_readout_period_ms env.periodMutexPresent p₃ st,
           [ProtoResp.ok ("set_readout_period".toList) ((p₃ : ℕ) : ℚ)], true)
        else
          (st, [ProtoResp.err ("unknown command".toList)], false)

/-- The lock environment of a healthy run: both mutexes created and
acquired within the bound. -/
def protoEnv : LockEnv := ⟨LockStatus.acquired, true⟩

/-! ### I2C device-handle cache (Aircube/firmware/main/i2c_driver.c) -/

/-- MAX_CACHED_DEVICES from i2c_driver.c. -/
def MAX_CACHED_DEVICES : ℕ := 4

/-- The first loop of get_device_handle: scan the slots in order for an
in-use entry carrying the requested address.  A slot is an Option of
(address, handle); none models in_use = false. -/
def lookup_cached (addr : ℕ) : List (Option (ℕ × ℕ)) → Option ℕ
  | [] => none
  | none :: rest => lookup_cached addr rest
  | some (a, h) :: rest => if a = addr then some h else lookup_cached addr rest

/-- The second loop of get_device_handle: fill the first free slot with the
new entry; none when every slot is in use. -/
def fill_first_free (addr handle : ℕ) :
    List (Option (ℕ × ℕ)) → Option (List (Option (ℕ × ℕ)))
  | [] => none
  | none :: rest => some (some (addr, handle) :: rest)
  | some e :: rest =>
    match fill_first_free addr handle rest with
    | some r => some (some e :: r)
    | none => none

/-- Embedding of get_device_handle (i2c_driver.c lines 29-61).  The
i2c_master_bus_add_device registration call is abstracted by its success
flag addOk and the handle newHandle it would produce.  Returns the handle
(none models the NULL failure returns), the updated cache, and whether a
device-registration call was issued: on a cache hit no registration
happens; on a miss with a free slot the registration is issued, and only
on its success is the slot marked in use; on a full cache the function
fails before any registration. -/
def get_device_handle (addr : ℕ) (addOk : Bool) (newHandle : ℕ)
    (cache : List (Option (ℕ × ℕ))) :
    Option ℕ × List (Option (ℕ × ℕ)) × Bool :=
  match lookup_cached addr cache with
  | some h => (some h, cache, false)
  | none =>
    match fill_first_free addr newHandle cache with
    | some cache' =>
      if addOk then (some newHandle, cache', true) else (none, cache, true)
    | none => (none, cache, false)

/-! ### ENS16x operating-mode transition (firmware/main/ens16x_driver.c) -/

/-- The ENS16x bus address, from ens16x_driver.c. -/
def ENS16X_I2C_ADDRESS : ℕ := 0x52

/-- The operating-mode register, from ens16x_driver.c. -/
def ENS16X_OPMODE : ℕ := 0x10

/-- ENS_OPMODE enum values from ens16x_driver.h. -/
def ENS_DEEP_SLEEP : ℕ := 0

/-- Idle operating mode, from ens16x_driver.h. -/
def ENS_IDLE : ℕ := 1

/-- Standard operating mode, from ens16x_driver.h. -/
def ENS_STANDARD : ℕ := 2

/-- A bus transaction issued through the transport layer. -/
inductive I2cOp
  | wr (addr : ℕ) (bytes : List ℕ)
  | rd (addr : ℕ) (reg : ℕ) (len : ℕ)
deriving DecidableEq

/-- Embedding of ens16x_set_opmode (ens16x_driver.c lines 64-86): the
ordered list of bus transactions it issues, and whether the confirm read
matched the requested mode (false means the non-fatal mode-change error is
logged and execution continues).  The byte the confirm read returns is the
parameter readback. -/
def ens16x_set_opmode (mode readback : ℕ) : List I2cOp × Bool :=
  ([I2cOp.wr ENS16X_I2C_ADDRESS [ENS16X_OPMODE, ENS_IDLE],
    I2cOp.wr ENS16X_I2C_ADDRESS [ENS16X_OPMODE, mode],
    I2cOp.rd ENS16X_I2C_ADDRESS ENS16X_OPMODE 1],
   readback == mode)

/-! ### ENS210 decoder (firmware/main/ens210.c) -/

/-- The ENS210 module state: the retained raw temperature and humidity
bytes (handed to the ENS16x for compensation) and the published converted
values. -/
structure Ens210State where
  t_lo : Fin 256
  t_hi : Fin 256
  temperature_K : ℚ
  temperature_C : ℚ
  temperature_F : ℚ
  h_lo : Fin 256
  h_hi : Fin 256
  humidity_percentage : ℚ
deriving DecidableEq

/-- Embedding of ens210_read_envir (ens210.c lines 87-149).  The three
bytes read back for T_VAL and the three for H_VAL are parameters; each
24-bit value is little-endian, bits 0-15 the fixed-point magnitude and bit
16 the validity flag; only a set flag lets the raw bytes and the converted
values be overwritten (1/64 K per LSB for temperature, 1/512 percent RH
per LSB for humidity). -/
def ens210_read_envir (tb hb : Fin 256 × Fin 256 × Fin 256) (st : Ens210State) :
    Ens210State :=
  let t_val := tb.1.val + 256 * (tb.2).1.val + 65536 * (tb.2).2.val
  let t_data := t_val % 65536
  let t_valid := t_val / 65536 % 2
  let st₁ :=
    if t_valid ≠ 0 then
      let TinK : ℚ := (t_data : ℚ) / 64
      let TinC : ℚ := TinK - 27315 / 100
      let TinF : ℚ := TinC * (18 / 10) + 32
      { st with
        t_lo := tb.1
        t_hi := (tb.2).1
        temperature_K := TinK
        temperature_C := TinC
        temperature_F := TinF }
    else st
  let h_val := hb.1.val + 256 * (hb.2).1.val + 65536 * (hb.2).2.val
  let h_data := h_val % 65536
  let h_valid := h_val / 65536 % 2
  if h_valid ≠ 0 then
    { st₁ with
      h_lo := hb.1
      h_hi := (hb.2).1
      humidity_percentage := (h_data : ℚ) / 512 }
  else st₁

end AirQ

namespace AirQ

/-! ### Theorems for the hysteresis and color-map claims -/

/-- C1: the spec requires that once the reported index has settled strictly
below the low threshold, any new reading inside the band [low-band, low+band)
leaves the reported index unchanged.  The code violates this: with the index
settled at 10 < 20 and a new reading 16 inside [15, 25), applyHysteresis
returns 16, changing the index.  (Only the single reading low-band itself is
held; the code's own comment promises to stick with lastAqIndex unless the
new value is beyond the hysteresis band.) -/
theorem applyHysteresis_low_band_divergence :
    applyHysteresis 10 16 = 16 ∧
    10 < AQ_THRESHOLD_LOW ∧
    AQ_THRESHOLD_LOW - AQ_HYSTERESIS_BAND ≤ 16 ∧
    16 < AQ_THRESHOLD_LOW + AQ_HYSTERESIS_BAND := by
  decide

/-- C2 counterexample: the code's pulse is not the period-1000 ms sinusoid
the spec describes.  After the very first call (counter advanced from 0 to
20 ms) the code's brightness, computed from the 50 ms period PULSE_MS,
already differs from the period-1000 ms sinusoid at the same counter
value. -/
theorem pulse_brightness_not_period_1000 :
    pulse_brightness (pulse_tick 0) ≠ spec_pulse_brightness (pulse_tick 0) := by
  have hpi := Real.pi_pos
  have h1 : ((pulse_tick 0 % PULSE_MS : ℕ) : ℝ) / (PULSE_MS : ℝ) * (2 * Real.pi) =
      Real.pi - Real.pi / 5 := by
    norm_num [pulse_tick, PULSE_MS]
    ring
  have h2 : ((pulse_tick 0 % 1000 : ℕ) : ℝ) / (1000 : ℝ) * (2 * Real.pi) =
      Real.pi / 25 := by
    norm_num [pulse_tick]
    ring
  have hlt : Real.sin (Real.pi / 25) < Real.sin (Real.pi / 5) :=
    Real.sin_lt_sin_of_lt_of_le_pi_div_two (by linarith) (by linarith) (by linarith)
  simp only [pulse_brightness, spec_pulse_brightness, h1, h2, Real.sin_pi_sub]
  intro h
  have : Real.sin (Real.pi / 5) = Real.sin (Real.pi / 25) := by linarith
  linarith

/-- C2 amended: during warm-up the pulsing brightness is the sinusoid
(sin(2*pi*(t mod 50)/50)+1)/2 of the accumulating counter t, with period
PULSE_MS = 50 ms (not 1000 ms), amplitude bounded by the full 0-1 scale,
and the counter advanced by the fixed 20 ms cadence on every call,
independent of sensor updates. -/
theorem pulse_brightness_amended (t : ℕ) :
    pulse_tick t = t + 20 ∧
    0 ≤ pulse_brightness (pulse_tick t) ∧
    pulse_brightness (pulse_tick t) ≤ 1 ∧
    pulse_brightness (pulse_tick t + PULSE_MS) = pulse_brightness (pulse_tick t) := by
  refine ⟨rfl, ?_, ?_, ?_⟩
  · have := Real.neg_one_le_sin
      (((pulse_tick t % PULSE_MS : ℕ) : ℝ) / (PULSE_MS : ℝ) * (2 * Real.pi))
    simp only [pulse_brightness]
    linarith
  · have := Real.sin_le_one
      (((pulse_tick t % PULSE_MS : ℕ) : ℝ) / (PULSE_MS : ℝ) * (2 * Real.pi))
    simp only [pulse_brightness]
    linarith
  · simp only [pulse_brightness, Nat.add_mod_right]

lemma aqi_to_hue_mid (v : ℤ) (h1 : AQI_GREEN_THRESHOLD < v) (h2 : v < AQI_MAX) :
    aqi_to_hue v = HUE_GREEN - ((v - AQI_GREEN_THRESHOLD).toNat * HUE_GREEN) / 190 := by
  simp only [aqi_to_hue, AQI_MIN, AQI_MAX, AQI_GREEN_THRESHOLD] at *
  rw [if_neg (by omega), if_neg (by omega), if_neg (by omega)]

/-- C4: the AQI-to-hue map sends every value at or below the green threshold
(10) to the green constant, every value at or above the ceiling (200) to the
red constant 0, and is monotonically non-increasing strictly between the
threshold and the ceiling. -/
theorem aqi_to_hue_spec (v v₁ v₂ : ℤ) :
    (v ≤ AQI_GREEN_THRESHOLD → aqi_to_hue v = HUE_GREEN) ∧
    (AQI_MAX ≤ v → aqi_to_hue v = 0) ∧
    (AQI_GREEN_THRESHOLD < v₁ → v₁ < v₂ → v₂ < AQI_MAX →
      aqi_to_hue v₂ ≤ aqi_to_hue v₁) := by
  refine ⟨?_, ?_, ?_⟩
  · intro hv
    simp only [aqi_to_hue, AQI_MIN, AQI_MAX, AQI_GREEN_THRESHOLD] at *
    split_ifs with ha hb hc <;> first | rfl | omega
  · intro hv
    simp only [aqi_to_hue, AQI_MIN, AQI_MAX, AQI_GREEN_THRESHOLD] at *
    rw [if_neg (by omega)]
    rw [if_neg (show ¬ v < 0 by omega)]
    by_cases h200 : v > 200
    · rw [if_pos h200]
      decide
    · have hv200 : v = 200 := by omega
      subst hv200
      decide
  · intro h1 h2 h3
    rw [aqi_to_hue_mid v₁ h1 (by omega), aqi_to_hue_mid v₂ (by omega) h3]
    refine Nat.sub_le_sub_left (Nat.div_le_div_right (Nat.mul_le_mul_right _ ?_)) _
    omega

/-- Closed witness for C4: the endpoint and monotonicity facts at the
concrete inputs 5, 250 and the pair 20 < 30. -/
theorem aqi_to_hue_spec_witness :
    aqi_to_hue 5 = HUE_GREEN ∧ aqi_to_hue 250 = 0 ∧ aqi_to_hue 30 ≤ aqi_to_hue 20 :=
  ⟨(aqi_to_hue_spec 5 20 30).1 (by decide),
   (aqi_to_hue_spec 250 20 30).2.1 (by decide),
   (aqi_to_hue_spec 5 20 30).2.2 (by decide) (by decide) (by decide)⟩

/-- C5: the smoothing recurrence has the closed form
target - (target - init) * (1 - rate)^n, never overshoots a fixed target
from either side, and for rate 0.02 the gap remaining after 50 ticks is
(49/50)^50 of the original, which lies between 0.36 and 0.37. -/
theorem smooth_iter_closed_form (target init : ℚ) (n : ℕ) :
    smooth_iter target init n =
      target - (target - init) * (1 - TRANSITION_SPEED) ^ n ∧
    (init ≤ target → smooth_iter target init n ≤ target) ∧
    (target ≤ init → target ≤ smooth_iter target init n) ∧
    (36 / 100 < (1 - TRANSITION_SPEED) ^ (50 : ℕ) ∧
     (1 - TRANSITION_SPEED) ^ (50 : ℕ) < 37 / 100) := by
  have hq : (0 : ℚ) < 1 - TRANSITION_SPEED := by norm_num [TRANSITION_SPEED]
  have closed : ∀ m : ℕ, smooth_iter target init m =
      target - (target - init) * (1 - TRANSITION_SPEED) ^ m := by
    intro m
    induction m with
    | zero => simp [smooth_iter]
    | succ k ih =>
      simp only [smooth_iter, smooth_step, ih, pow_succ]
      ring
  refine ⟨closed n, ?_, ?_, ?_, ?_⟩
  · intro h
    rw [closed n]
    have : 0 ≤ (target - init) * (1 - TRANSITION_SPEED) ^ n :=
      mul_nonneg (by linarith) (le_of_lt (pow_pos hq n))
    linarith
  · intro h
    rw [closed n]
    have : (target - init) * (1 - TRANSITION_SPEED) ^ n ≤ 0 :=
      mul_nonpos_of_nonpos_of_nonneg (by linarith) (le_of_lt (pow_pos hq n))
    linarith
  · norm_num [TRANSITION_SPEED]
  · norm_num [TRANSITION_SPEED]

/-- Closed witness for C5: the closed form and the no-overshoot bound at
target 1, initial hue 0, after 50 ticks. -/
theorem smooth_iter_closed_form_witness :
    smooth_iter 1 0 50 = 1 - (1 - 0) * (1 - TRANSITION_SPEED) ^ (50 : ℕ) ∧
    smooth_iter 1 0 50 ≤ 1 :=
  ⟨(smooth_iter_closed_form 1 0 50).1,
   (smooth_iter_closed_form 1 0 50).2.1 (by norm_num)⟩

/-! ### Theorems for the line protocol and LED intensity claims -/

/-- C3 counterexample: a malformed message (a brace object that does not
carry the canonical cmd envelope) is dropped silently: parse_command prints
no response at all, contradicting the claim that every malformed message is
answered with an error response line. -/
theorem malformed_message_dropped_silently :
    parse_command protoEnv ("\x7b\"bad\":\"xx\"\x7d".toList) initialSysState =
      (initialSysState, [], false) := by
  rfl

/-- C3 amended: every message whose command envelope parses but whose
command name is unrecognized is answered with exactly one error response
(missing value field when the buffer has no value key, unknown command
otherwise); only messages that fail the envelope checks themselves are
dropped without a response. -/
theorem unrecognized_command_gets_error (env : LockEnv) (st : SysState)
    (buffer cmd_name : List Char)
    (hname : parse_command_name buffer = some cmd_name)
    (h1 : cmd_name ≠ ("get_config".toList))
    (h2 : cmd_name ≠ ("set_intensity".toList))
    (h3 : cmd_name ≠ ("set_readout_period".toList)) :
    (parse_command env buffer st).2.1 =
        [ProtoResp.err ("missing value field".toList)] ∨
    (parse_command env buffer st).2.1 =
        [ProtoResp.err ("unknown command".toList)] := by
  have h1' := h1
  have h2' := h2
  have h3' := h3
  simp at h1' h2' h3'
  cases hv : strstrList ("\"value\":".toList) buffer with
  | none =>
    left
    simp at hv
    simp [parse_command, hname, hv, h1']
  | some value_at =>
    right
    simp at hv
    simp [parse_command, hname, hv, h1', h2', h3']

/-- Witness for the amended C3 theorem at the concrete unrecognized command
bogus, which carries no value field. -/
theorem unrecognized_command_gets_error_witness :
    (parse_command protoEnv ("\x7b\"cmd\":\"bogus\"\x7d".toList)
        initialSysState).2.1 = [ProtoResp.err ("missing value field".toList)] ∨
    (parse_command protoEnv ("\x7b\"cmd\":\"bogus\"\x7d".toList)
        initialSysState).2.1 = [ProtoResp.err ("unknown command".toList)] :=
  unrecognized_command_gets_error protoEnv initialSysState
    ("\x7b\"cmd\":\"bogus\"\x7d".toList) ("bogus".toList)
    (by decide) (by decide) (by decide) (by decide)

/-- C7: round-trip of the two settings through the line protocol, with both
mutexes healthy.  set_intensity with value 1.5 clamps to 1.0 and a
subsequent get_config reports intensity 1.0 (and the untouched period
1000); set_readout_period with value 50000 clamps to 10000 ms and a
subsequent get_config reports readout_period 10000. -/
theorem settings_round_trip :
    (parse_command protoEnv ("\x7b\"cmd\":\"set_intensity\",\"value\":1.5\x7d".toList)
        initialSysState).2.1 = [ProtoResp.ok ("set_intensity".toList) 1] ∧
    (let st₁ := (parse_command protoEnv
        ("\x7b\"cmd\":\"set_intensity\",\"value\":1.5\x7d".toList) initialSysState).1
     st₁.led.led_intensity = 1 ∧
     (parse_command protoEnv ("\x7b\"cmd\":\"get_config\"\x7d".toList) st₁).2.1 =
        [ProtoResp.config 1 1000] ∧
     (let st₂ := (parse_command protoEnv
        ("\x7b\"cmd\":\"set_readout_period\",\"value\":50000\x7d".toList) st₁).1
      st₂.sensor_readout_period_ms = 10000 ∧
      (parse_command protoEnv ("\x7b\"cmd\":\"get_config\"\x7d".toList) st₂).2.1 =
        [ProtoResp.config 1 10000])) := by
  have hfl : ∀ q : ℚ, ratToU32 q = (⌊q⌋).toNat := fun _ => rfl
  have c0 : ('0').toNat = 48 := rfl
  have c1 : ('1').toNat = 49 := rfl
  have c5 : ('5').toNat = 53 := rfl
  have e1 : parse_command protoEnv
      ("\x7b\"cmd\":\"set_intensity\",\"value\":1.5\x7d".toList) initialSysState =
      (⟨⟨0, 1⟩, 1000⟩, [ProtoResp.ok ("set_intensity".toList) 1], true) := by
    norm_num +decide [parse_command, parse_command_name, strstrList, leadsWith,
      idxOfChar, strtofQ, digitsTake, led_set_intensity, initialSysState, protoEnv,
      c0, c1, c5]
  have e2 : parse_command protoEnv ("\x7b\"cmd\":\"get_config\"\x7d".toList)
      (⟨⟨0, 1⟩, 1000⟩ : SysState) =
      (⟨⟨0, 1⟩, 1000⟩, [ProtoResp.config 1 1000], true) := by
    norm_num +decide [parse_command, parse_command_name, strstrList, leadsWith,
      idxOfChar, led_get_intensity, get_sensor_readout_period_ms, protoEnv]
  have e3 : parse_command protoEnv
      ("\x7b\"cmd\":\"set_readout_period\",\"value\":50000\x7d".toList)
      (⟨⟨0, 1⟩, 1000⟩ : SysState) =
      (⟨⟨0, 1⟩, 10000⟩, [ProtoResp.ok ("set_readout_period".toList) 10000], true) := by
    norm_num +decide [parse_command, parse_command_name, strstrList, leadsWith,
      idxOfChar, strtofQ, digitsTake, hfl, set_sensor_readout_period_ms, protoEnv,
      c0, c1, c5]
  have e4 : parse_command protoEnv ("\x7b\"cmd\":\"get_config\"\x7d".toList)
      (⟨⟨0, 1⟩, 10000⟩ : SysState) =
      (⟨⟨0, 1⟩, 10000⟩, [ProtoResp.config 1 10000], true) := by
    norm_num +decide [parse_command, parse_command_name, strstrList, leadsWith,
      idxOfChar, led_get_intensity, get_sensor_readout_period_ms, protoEnv]
  refine ⟨by rw [e1], ?_⟩
  simp only [e1, e2, e3, e4]
  exact ⟨trivial, trivial, trivial, trivial⟩

/-- C10: the stored LED intensity is clamped by led_set_intensity itself:
whenever the store happens (mutex acquired, or absent so the direct-store
fallback runs) the stored value is min(max(x,0),1); a lock timeout keeps
the previous value; consequently the stored intensity never leaves [0,1]
once inside it, whatever value any caller passes. -/
theorem led_set_intensity_clamps (lock : LockStatus) (x : ℚ) (st : LedState) :
    (lock ≠ LockStatus.timedOut →
      (led_set_intensity lock x st).led_intensity = min (max x 0) 1) ∧
    ((led_set_intensity lock x st).led_intensity = min (max x 0) 1 ∨
      (led_set_intensity lock x st).led_intensity = st.led_intensity) ∧
    (0 ≤ st.led_intensity → st.led_intensity ≤ 1 →
      0 ≤ (led_set_intensity lock x st).led_intensity ∧
        (led_set_intensity lock x st).led_intensity ≤ 1) := by
  have hclamp : (if (if x < 0 then (0 : ℚ) else x) > 1 then (1 : ℚ)
      else if x < 0 then (0 : ℚ) else x) = min (max x 0) 1 := by
    split_ifs with h1 h2 h3 <;>
      simp only [min_def, max_def] <;> split_ifs <;> linarith
  have hmm : (0 : ℚ) ≤ min (max x 0) 1 ∧ min (max x 0) 1 ≤ 1 :=
    ⟨le_min (le_max_right x 0) zero_le_one, min_le_right _ _⟩
  cases lock with
  | absent =>
    refine ⟨fun _ => ?_, Or.inl ?_, fun _ _ => ?_⟩ <;>
      simp only [led_set_intensity, hclamp] <;> exact ⟨hmm.1, hmm.2⟩
  | acquired =>
    refine ⟨fun _ => ?_, Or.inl ?_, fun _ _ => ?_⟩ <;>
      simp only [led_set_intensity, hclamp] <;> exact ⟨hmm.1, hmm.2⟩
  | timedOut =>
    exact ⟨fun h => absurd rfl h, Or.inr rfl, fun h0 h1 => ⟨h0, h1⟩⟩

/-- Witness for C10 at the out-of-range input 2 with the mutex acquired,
from a state holding intensity one half. -/
theorem led_set_intensity_clamps_witness :
    (led_set_intensity LockStatus.acquired 2 ⟨0, 1 / 2⟩).led_intensity =
      min (max 2 0) 1 ∧
    0 ≤ (led_set_intensity LockStatus.acquired 2 ⟨0, 1 / 2⟩).led_intensity ∧
    (led_set_intensity LockStatus.acquired 2 ⟨0, 1 / 2⟩).led_intensity ≤ 1 :=
  ⟨(led_set_intensity_clamps LockStatus.acquired 2 ⟨0, 1 / 2⟩).1 (by decide),
   ((led_set_intensity_clamps LockStatus.acquired 2 ⟨0, 1 / 2⟩).2.2
      (by norm_num) (by norm_num)).1,
   ((led_set_intensity_clamps LockStatus.acquired 2 ⟨0, 1 / 2⟩).2.2
      (by norm_num) (by norm_num)).2⟩

/-! ### Theorems for the transport-cache, mode-transition and decoder claims -/

lemma lookup_cached_fill (addr handle : ℕ) :
    ∀ cache cache' : List (Option (ℕ × ℕ)),
      lookup_cached addr cache = none →
      fill_first_free addr handle cache = some cache' →
      lookup_cached addr cache' = some handle := by
  intro cache
  induction cache with
  | nil => intro cache' _ h; simp [fill_first_free] at h
  | cons slot rest ih =>
    intro cache' hnone h
    match slot with
    | none =>
      simp only [fill_first_free, Option.some.injEq] at h
      subst h
      simp only [lookup_cached] at hnone ⊢
      simp [hnone]
    | some (a, hd) =>
      by_cases ha : a = addr
      · subst ha
        simp [lookup_cached] at hnone
      · simp only [lookup_cached, if_neg ha] at hnone
        cases hrec : fill_first_free addr handle rest with
        | none => simp [fill_first_free, hrec] at h
        | some r =>
          simp only [fill_first_free, hrec, Option.some.injEq] at h
          subst h
          simp [lookup_cached, ha, ih r hnone hrec]

lemma fill_first_free_full (addr handle : ℕ) :
    ∀ cache : List (Option (ℕ × ℕ)), (∀ s ∈ cache, s ≠ none) →
      fill_first_free addr handle cache = none := by
  intro cache
  induction cache with
  | nil => intro _; rfl
  | cons slot rest ih =>
    intro hfull
    match slot with
    | none => exact absurd rfl (hfull none (by simp))
    | some e =>
      have hrest : fill_first_free addr handle rest = none :=
        ih (fun s hs => hfull s (List.mem_cons_of_mem _ hs))
      simp [fill_first_free, hrest]

/-- C6: the device-handle cache is idempotent and never evicts.  Whenever a
request for an address succeeds, a second request for the same address
returns the same handle, leaves the cache unchanged and issues no further
device-registration call; and a request for a new address while every slot
is in use returns the NULL failure (cache-full error), leaves every cached
entry in place and issues no registration. -/
theorem get_device_handle_cache_spec (addr newHandle newHandle' h : ℕ)
    (addOk addOk' : Bool) (cache : List (Option (ℕ × ℕ))) :
    ((get_device_handle addr addOk newHandle cache).1 = some h →
      get_device_handle addr addOk' newHandle'
          (get_device_handle addr addOk newHandle cache).2.1 =
        (some h, (get_device_handle addr addOk newHandle cache).2.1, false)) ∧
    ((∀ s ∈ cache, s ≠ none) → lookup_cached addr cache = none →
      get_device_handle addr addOk newHandle cache = (none, cache, false)) := by
  constructor
  · intro hres
    cases hl : lookup_cached addr cache with
    | some h0 =>
      have : (get_device_handle addr addOk newHandle cache) = (some h0, cache, false) := by
        simp [get_device_handle, hl]
      rw [this] at hres ⊢
      simp only [Option.some.injEq] at hres
      subst hres
      simp [get_device_handle, hl]
    | none =>
      cases hf : fill_first_free addr newHandle cache with
      | none =>
        have : (get_device_handle addr addOk newHandle cache) = (none, cache, false) := by
          simp [get_device_handle, hl, hf]
        rw [this] at hres
        simp at hres
      | some cache' =>
        cases addOk with
        | false =>
          have : (get_device_handle addr false newHandle cache) = (none, cache, true) := by
            simp [get_device_handle, hl, hf]
          rw [this] at hres
          simp at hres
        | true =>
          have hcall : (get_device_handle addr true newHandle cache) =
              (some newHandle, cache', true) := by
            simp [get_device_handle, hl, hf]
          rw [hcall] at hres ⊢
          simp only [Option.some.injEq] at hres
          subst hres
          simp [get_device_handle, lookup_cached_fill addr newHandle cache cache' hl hf]
  · intro hfull hl
    simp [get_device_handle, hl, fill_first_free_full addr newHandle cache hfull]

/-- Witness for C6: a fresh address cached into an empty 4-slot cache is
returned from the cache on the second request with no new registration;
and a 5th distinct address against a full cache fails without eviction. -/
theorem get_device_handle_cache_spec_witness :
    get_device_handle 67 false 99
        (get_device_handle 67 true 7 [none, none, none, none]).2.1 =
      (some 7, (get_device_handle 67 true 7 [none, none, none, none]).2.1, false) ∧
    get_device_handle 5 true 9 [some (1, 10), some (2, 20), some (3, 30), some (4, 40)] =
      (none, [some (1, 10), some (2, 20), some (3, 30), some (4, 40)], false) :=
  ⟨(get_device_handle_cache_spec 67 7 99 7 true false
      [none, none, none, none]).1 (by decide),
   (get_device_handle_cache_spec 5 9 9 9 true true
      [some (1, 10), some (2, 20), some (3, 30), some (4, 40)]).2
      (by decide) (by decide)⟩

/-- C8: for every requested operating mode X other than Idle, the
mode-change routine issues the Idle write strictly before the X write,
then reads the mode register back, and reports the (non-fatal) mode-change
failure exactly when the readback differs from X. -/
theorem ens16x_set_opmode_protocol (mode readback : ℕ) (hm : mode ≠ ENS_IDLE) :
    ∃ i j k : ℕ, i < j ∧ j < k ∧
      (ens16x_set_opmode mode readback).1[i]? =
        some (I2cOp.wr ENS16X_I2C_ADDRESS [ENS16X_OPMODE, ENS_IDLE]) ∧
      (ens16x_set_opmode mode readback).1[j]? =
        some (I2cOp.wr ENS16X_I2C_ADDRESS [ENS16X_OPMODE, mode]) ∧
      (ens16x_set_opmode mode readback).1[k]? =
        some (I2cOp.rd ENS16X_I2C_ADDRESS ENS16X_OPMODE 1) ∧
      ((ens16x_set_opmode mode readback).2 = false ↔ readback ≠ mode) := by
  refine ⟨0, 1, 2, by norm_num, by norm_num, rfl, rfl, rfl, ?_⟩
  simp [ens16x_set_opmode]

/-- Witness for C8 at the Standard mode request with a confirming
readback. -/
theorem ens16x_set_opmode_protocol_witness :
    ∃ i j k : ℕ, i < j ∧ j < k ∧
      (ens16x_set_opmode ENS_STANDARD ENS_STANDARD).1[i]? =
        some (I2cOp.wr ENS16X_I2C_ADDRESS [ENS16X_OPMODE, ENS_IDLE]) ∧
      (ens16x_set_opmode ENS_STANDARD ENS_STANDARD).1[j]? =
        some (I2cOp.wr ENS16X_I2C_ADDRESS [ENS16X_OPMODE, ENS_STANDARD]) ∧
      (ens16x_set_opmode ENS_STANDARD ENS_STANDARD).1[k]? =
        some (I2cOp.rd ENS16X_I2C_ADDRESS ENS16X_OPMODE 1) ∧
      ((ens16x_set_opmode ENS_STANDARD ENS_STANDARD).2 = false ↔
        ENS_STANDARD ≠ ENS_STANDARD) :=
  ens16x_set_opmode_protocol ENS_STANDARD ENS_STANDARD (by decide)

/-- C9: a register read whose validity bit (bit 16) is clear leaves every
previously published value for that field unchanged: for temperature the
Kelvin, Celsius and Fahrenheit values and the retained raw bytes, for
humidity the percentage and its retained raw bytes.  Only a read with the
validity bit set overwrites them. -/
theorem ens210_read_envir_invalid_keeps (tb hb : Fin 256 × Fin 256 × Fin 256)
    (st : Ens210State) :
    ((tb.2).2.val % 2 = 0 →
      (ens210_read_envir tb hb st).t_lo = st.t_lo ∧
      (ens210_read_envir tb hb st).t_hi = st.t_hi ∧
      (ens210_read_envir tb hb st).temperature_K = st.temperature_K ∧
      (ens210_read_envir tb hb st).temperature_C = st.temperature_C ∧
      (ens210_read_envir tb hb st).temperature_F = st.temperature_F) ∧
    ((hb.2).2.val % 2 = 0 →
      (ens210_read_envir tb hb st).h_lo = st.h_lo ∧
      (ens210_read_envir tb hb st).h_hi = st.h_hi ∧
      (ens210_read_envir tb hb st).humidity_percentage = st.humidity_percentage) := by
  constructor
  · intro htv
    have ht0 : (tb.1.val + 256 * (tb.2).1.val + 65536 * (tb.2).2.val) / 65536 % 2 = 0 := by
      have h1 := tb.1.isLt
      have h2 := (tb.2).1.isLt
      omega
    simp only [ens210_read_envir, ht0]
    rw [if_neg (show ¬((0 : ℕ) ≠ 0) by simp)]
    split_ifs <;> simp
  · intro hhv
    have hh0 : (hb.1.val + 256 * (hb.2).1.val + 65536 * (hb.2).2.val) / 65536 % 2 = 0 := by
      have h1 := hb.1.isLt
      have h2 := (hb.2).1.isLt
      omega
    simp only [ens210_read_envir, hh0]
    rw [if_neg (show ¬((0 : ℕ) ≠ 0) by simp)]
    split_ifs <;> simp

/-- Witness for C9: both validity bits clear (third bytes even) leave a
concrete state untouched. -/
theorem ens210_read_envir_invalid_keeps_witness :
    (ens210_read_envir ((16 : Fin 256), (39 : Fin 256), (2 : Fin 256))
        ((0 : Fin 256), (64 : Fin 256), (4 : Fin 256))
        ⟨0, 0, 0, 0, 0, 0, 0, 0⟩).temperature_C =
      (⟨0, 0, 0, 0, 0, 0, 0, 0⟩ : Ens210State).temperature_C ∧
    (ens210_read_envir ((16 : Fin 256), (39 : Fin 256), (2 : Fin 256))
        ((0 : Fin 256), (64 : Fin 256), (4 : Fin 256))
        ⟨0, 0, 0, 0, 0, 0, 0, 0⟩).humidity_percentage =
      (⟨0, 0, 0, 0, 0, 0, 0, 0⟩ : Ens210State).humidity_percentage :=
  ⟨((ens210_read_envir_invalid_keeps ((16 : Fin 256), (39 : Fin 256), (2 : Fin 256))
      ((0 : Fin 256), (64 : Fin 256), (4 : Fin 256)) ⟨0, 0, 0, 0, 0, 0, 0, 0⟩).1
      (by decide)).2.2.2.1,
   ((ens210_read_envir_invalid_keeps ((16 : Fin 256), (39 : Fin 256), (2 : Fin 256))
      ((0 : Fin 256), (64 : Fin 256), (4 : Fin 256)) ⟨0, 0, 0, 0, 0, 0, 0, 0⟩).2
      (by decide)).2.2⟩

end AirQ
